import Mathlib

/-!
Shallow embedding of the authorization / identity core of the
`nd-aiaplatform-be` service, together with theorems about it.

Embedded code:
  * `app/core/permissions.py` — `check_role_and_permission`
  * `app/core/auth.py` — `get_cached_user`, `get_current_user`
  * `app/api/v1/endpoints/subscriptions.py` — `subscribe_agent`
  * `app/services/subscription_service.py` — `get_active_subscription`,
    `update_subscription`, `unsubscribe`

JWT decoding (the `jwt.decode` call of the PyJWT library) is abstracted as a
function `String → VerifyResult` whose constructors mirror the exception
classes the Python code catches (`ExpiredSignatureError`,
`InvalidSignatureError`, and other `InvalidTokenError`s).  The Clerk identity
provider is modelled as a stream of responses consumed one per call, with a
call counter, so that cache behaviour and provider-failure handling are
observable.
-/

/-- The `o` claim of a token: a dict that may carry a `rol` key (role string)
and a `per` key (comma-separated permission list).  An `Option` field is
`none` when the key is absent from the dict. -/
structure OrgData where
  rol : Option String
  per : Option String
deriving DecidableEq, Repr

/-- Python truthiness of the `o` dict restricted to the two keys the code
reads: the dict is truthy exactly when it has at least one key. -/
def OrgData.nonempty (d : OrgData) : Bool :=
  d.rol.isSome || d.per.isSome

/-- The decoded JWT payload, restricted to the claims the code reads:
`sub` (subject id), `sid` (session id), `o` (organization dict) and `fea`
(comma-separated feature list).  `none` models an absent key. -/
structure TokenPayload where
  sub : Option String
  sid : Option String
  o : Option OrgData
  fea : Option String
deriving DecidableEq, Repr

/-- Outcome of `jwt.decode(token, CLERK_JWT_KEY, algorithms=["RS256"])`:
either a decoded payload, or one of the PyJWT exceptions the code
distinguishes.  `badSignature` models `jwt.InvalidSignatureError` (a subclass
of `InvalidTokenError`, raised by PyJWT with the fixed message
"Signature verification failed"); `malformed` models any other
`jwt.InvalidTokenError`, carrying its `str(e)` message. -/
inductive VerifyResult where
  | ok (payload : TokenPayload)
  | expired
  | badSignature
  | malformed (msg : String)
deriving DecidableEq, Repr

/-- The user dict built in `app/core/auth.py` from a Clerk user record:
`{"id": ..., "email": ..., "first_name": ..., "last_name": ...}`. -/
structure UserInfo where
  id : String
  email : Option String
  first_name : Option String
  last_name : Option String
deriving DecidableEq, Repr

/-- Python `str.split(sep)` for a non-empty single-character separator, on
the character list: splitting the empty string yields `[[]]`, and a
separator at either end yields an empty chunk there. -/
def chSplit (sep : Char) : List Char → List (List Char)
  | [] => [[]]
  | c :: cs =>
    match chSplit sep cs with
    | [] => if c = sep then [[], []] else [[c]]
    | w :: ws => if c = sep then [] :: w :: ws else (c :: w) :: ws

/-- Characters Python `str.strip()` removes (ASCII whitespace). -/
def isPySpace (c : Char) : Bool :=
  c = ' ' || c = '\t' || c = '\n' || c = '\x0d' || c = '\x0b' || c = '\x0c'

/-- Python `str.strip()` on the character list. -/
def chStrip (l : List Char) : List Char :=
  ((l.dropWhile isPySpace).reverse.dropWhile isPySpace).reverse

/-- First argument read as a pattern: `chHasStart p l` is true when `l`
begins with `p` (Python `str.startswith`). -/
def chHasStart : List Char → List Char → Bool
  | [], _ => true
  | _ :: _, [] => false
  | p :: ps, c :: cs => p = c && chHasStart ps cs

/-- Python `s.split(sep)` for a single-character separator. -/
def pySplit (s : String) (sep : Char) : List String :=
  (chSplit sep s.data).map String.mk

/-- Python `s.strip()`. -/
def pyStrip (s : String) : String :=
  String.mk (chStrip s.data)

/-- Python `s.startswith(p)`. -/
def pyStartsWith (s p : String) : Bool :=
  chHasStart p.data s.data

/-- Parsing of a comma-separated claim, as in
`{f.strip() for f in s.split(',') if f.strip()}`: split on commas, trim
whitespace, drop empties.  The Python set is modelled as the resulting list
(duplicates do not affect membership or emptiness). -/
def parseClaimSet (s : String) : List String :=
  ((pySplit s ',').map pyStrip).filter (fun f => f ≠ "")

/-- The exceptions `check_role_and_permission` can raise, as structured data:
each constructor carries exactly the values interpolated into the
corresponding `HTTPException`'s `detail` f-string. -/
inductive PermError where
  | authRequired
  | invalidAuthHeader
  | tokenExpired
  | invalidToken (msg : String)
  | noOrgData
  | insufficientRole (required : String) (found : Option String)
  | invalidPermissionFormat (perm : String)
  | noFeatureData
  | insufficientPermission (required : String) (features : List String)
      (permissions : List String)
deriving DecidableEq, Repr

/-- HTTP status code attached to each `HTTPException` raised by
`check_role_and_permission`. -/
def PermError.statusCode : PermError → Nat
  | .authRequired => 401
  | .invalidAuthHeader => 401
  | .tokenExpired => 401
  | .invalidToken _ => 401
  | .noOrgData => 403
  | .insufficientRole _ _ => 403
  | .invalidPermissionFormat _ => 500
  | .noFeatureData => 403
  | .insufficientPermission _ _ _ => 403

/-- Python `f"{user_role}"` on an `Optional[str]`: `None` prints as "None". -/
def formatRole : Option String → String
  | none => "None"
  | some r => r

/-- Rendering of a parsed claim set in an error message.  Python formats the
set nondeterministically (`{'a', 'b'}` in hash order); we render the parsed
list in order, which carries the same information. -/
def formatSet (l : List String) : String :=
  "\x7b" ++ String.intercalate ", " l ++ "\x7d"

/-- The `detail` string of each `HTTPException` raised by
`check_role_and_permission`, mirroring the f-strings of the source. -/
def PermError.detail : PermError → String
  | .authRequired => "Authentication required"
  | .invalidAuthHeader => "Invalid authorization header"
  | .tokenExpired => "Token has expired"
  | .invalidToken msg => "Invalid token: " ++ msg
  | .noOrgData => "No organization data found in token"
  | .insufficientRole required found =>
      "Insufficient role. Required: " ++ required ++ ", Found: " ++ formatRole found
  | .invalidPermissionFormat p => "Invalid permission format: " ++ p
  | .noFeatureData => "No feature data found in token"
  | .insufficientPermission required features permissions =>
      "Insufficient permissions. Required: " ++ required ++ ". Found features: "
        ++ formatSet features ++ ", permissions: " ++ formatSet permissions

/-- Token extraction `auth_header.split(' ')[1]` (defined because the header
is known to start with "Bearer ", hence has at least two chunks). -/
def bearerToken (h : String) : String :=
  (pySplit h ' ').getD 1 ""

/-- Shallow embedding of `check_role_and_permission` from
`app/core/permissions.py`.

  * `verify` abstracts `jwt.decode` with the configured key;
  * `current_user` is the dependency-injected user dict (`none` models a
    missing/falsy `current_user`);
  * `authHeader` is `request.headers.get('Authorization')`.

The function returns `Except.ok true` where the Python returns `True`, and
`Except.error e` where it raises `HTTPException(e.statusCode, e.detail)`.
The `except HTTPException: raise` handler of the source re-raises the listed
errors unchanged, so they surface exactly as constructed. -/
def check_role_and_permission (verify : String → VerifyResult)
    (current_user : Option UserInfo) (authHeader : Option String)
    (required_role : String) (required_permission : String) :
    Except PermError Bool :=
  if current_user.isNone then
    .error .authRequired
  else
    match authHeader with
    | none => .error .invalidAuthHeader
    | some h =>
      if ¬ pyStartsWith h "Bearer " then .error .invalidAuthHeader
      else
        match verify (bearerToken h) with
        | .expired => .error .tokenExpired
        | .badSignature => .error (.invalidToken "Signature verification failed")
        | .malformed msg => .error (.invalidToken msg)
        | .ok payload =>
          let org_data := payload.o.getD ⟨none, none⟩
          if ¬ org_data.nonempty then
            .error .noOrgData
          else
            let user_role := org_data.rol
            if user_role ≠ some required_role then
              .error (.insufficientRole required_role user_role)
            else
              match pySplit required_permission ':' with
              | [_, required_feature, required_action] =>
                let features := parseClaimSet (payload.fea.getD "")
                let permissions := parseClaimSet (org_data.per.getD "")
                if features.isEmpty then
                  .error .noFeatureData
                else if features.contains required_feature
                    && permissions.contains required_action then
                  .ok true
                else
                  .error (.insufficientPermission required_permission features permissions)
              | _ => .error (.invalidPermissionFormat required_permission)

/-- Clerk user record, as consumed by `clerk.users.get(user_id=...)`:
only the fields the code reads. -/
structure ClerkUser where
  id : String
  email_addresses : List String
  first_name : Option String
  last_name : Option String
deriving DecidableEq, Repr

/-- Building the user dict from a Clerk record (the expression duplicated at
both call sites of `clerk.users.get` in `app/core/auth.py`), including
`email_addresses[0].email_address if user.email_addresses else None`. -/
def userInfoOfClerk (u : ClerkUser) : UserInfo :=
  { id := u.id
  , email := match u.email_addresses with
      | [] => none
      | e :: _ => some e
  , first_name := u.first_name
  , last_name := u.last_name }

/-- The two exception classes caught around `get_cached_user`:
`clerk_backend_api.models.ClerkErrors` and `SDKError`, each carrying its
`str(e)` message. -/
inductive ProviderError where
  | clerkErrors (msg : String)
  | sdkError (msg : String)
deriving DecidableEq, Repr

/-- Python `str(e)` of a provider exception. -/
def ProviderError.message : ProviderError → String
  | .clerkErrors m => m
  | .sdkError m => m

/-- The external Clerk identity provider, modelled as a stream of responses
consumed one per `clerk.users.get` call, plus a counter of calls made.
Distinct calls may answer differently (transient provider errors). -/
structure ProviderState where
  responses : List (Except ProviderError ClerkUser)
  calls : Nat
deriving Repr

/-- One `clerk.users.get(user_id=...)` call: consume the next response and
count the call.  An exhausted stream answers with an `SDKError`. -/
def usersGet (ps : ProviderState) : Except ProviderError ClerkUser × ProviderState :=
  match ps.responses with
  | [] => (.error (.sdkError "provider unavailable"), { ps with calls := ps.calls + 1 })
  | r :: rest => (r, { responses := rest, calls := ps.calls + 1 })

/-- The memo table of `@lru_cache(maxsize=100) get_cached_user`, keyed by the
argument pair `(user_id, timestamp)`, most recently used entry first. -/
abbrev Cache := List ((String × Nat) × UserInfo)

/-- The `maxsize` of the `lru_cache` decorator. -/
def CACHE_MAXSIZE : Nat := 100

/-- Key equality test of the memo table. -/
def cacheKeyMatches (user_id : String) (timestamp : Nat)
    (e : (String × Nat) × UserInfo) : Bool :=
  e.1.1 == user_id && e.1.2 == timestamp

/-- Result of one `get_cached_user(user_id, timestamp)` call: the returned
value or raised provider exception, plus the memo table and provider state
after the call. -/
structure CacheResult where
  result : Except ProviderError UserInfo
  cache : Cache
  provider : ProviderState
deriving Repr

/-- Shallow embedding of `get_cached_user` from `app/core/auth.py` under its
`@lru_cache(maxsize=100)` decorator: on a hit, return the memoized dict and
mark the key most recently used, without touching the provider; on a miss,
call `clerk.users.get` — a raised provider exception is not memoized, a
returned user is memoized (evicting the least recently used entry when the
table is full). -/
def get_cached_user (c : Cache) (ps : ProviderState) (user_id : String)
    (timestamp : Nat) : CacheResult :=
  match c.find? (cacheKeyMatches user_id timestamp) with
  | some e =>
      { result := .ok e.2
      , cache := ((user_id, timestamp), e.2)
          :: c.filter (fun x => ¬ cacheKeyMatches user_id timestamp x)
      , provider := ps }
  | none =>
      match usersGet ps with
      | (.error err, ps1) => { result := .error err, cache := c, provider := ps1 }
      | (.ok u, ps1) =>
          let info := userInfoOfClerk u
          { result := .ok info
          , cache := (((user_id, timestamp), info) :: c).take CACHE_MAXSIZE
          , provider := ps1 }

/-- An `HTTPException`: status code and `detail` string. -/
structure HttpError where
  statusCode : Nat
  detail : String
deriving DecidableEq, Repr

/-- Python `str()` of a starlette/fastapi `HTTPException`, which renders as
"status_code: detail". -/
def httpExcStr (statusCode : Nat) (detail : String) : String :=
  toString statusCode ++ ": " ++ detail

/-- The mutable state `get_current_user` operates on: the process-wide
`get_cached_user` memo table and the external provider. -/
structure ResolverState where
  cache : Cache
  provider : ProviderState
deriving Repr

/-- Shallow embedding of `get_current_user` from `app/core/auth.py`.

`verify` abstracts `jwt.decode`, `now` is `time.time()` in whole seconds and
`credentials` the bearer string.  Returns the user dict or the
`HTTPException` the caller observes, with the state after the call.

Faithful to the source's exception handling: the whole body sits in one
`try` whose handlers are the three `jwt` errors and a blanket
`except Exception` that re-raises as 500 "Authentication error: str(e)".
There is no `except HTTPException: raise` handler, so the 401s raised inside
the body for a missing `sub`/`sid` claim are caught by the blanket handler
and surface as that 500 (with `str` of the `HTTPException` rendering as
"401: <detail>").  Likewise a provider exception raised inside the
`except (ClerkErrors, SDKError)` block — by the direct `clerk.users.get`
call or by the re-population `get_cached_user` call after
`cache_clear()` — propagates to the blanket handler and surfaces as 500. -/
def get_current_user (verify : String → VerifyResult) (now : Nat)
    (credentials : String) (st : ResolverState) :
    Except HttpError UserInfo × ResolverState :=
  match verify credentials with
  | .expired => (.error ⟨401, "Token has expired"⟩, st)
  | .badSignature => (.error ⟨401, "Invalid token signature"⟩, st)
  | .malformed _ => (.error ⟨401, "Invalid token format"⟩, st)
  | .ok payload =>
    let user_id := payload.sub.getD ""
    if user_id = "" then
      (.error ⟨500, "Authentication error: "
          ++ httpExcStr 401 "Invalid token: No user ID found"⟩, st)
    else if payload.sid.getD "" = "" then
      (.error ⟨500, "Authentication error: "
          ++ httpExcStr 401 "Invalid token: No session ID found"⟩, st)
    else
      let current_timestamp := now / 300
      let r1 := get_cached_user st.cache st.provider user_id current_timestamp
      match r1.result with
      | .ok info => (.ok info, ⟨r1.cache, r1.provider⟩)
      | .error _ =>
        match usersGet r1.provider with
        | (.error e2, ps2) =>
            (.error ⟨500, "Authentication error: " ++ e2.message⟩, ⟨r1.cache, ps2⟩)
        | (.ok u, ps2) =>
            let user_info := userInfoOfClerk u
            let r3 := get_cached_user [] ps2 user_id current_timestamp
            match r3.result with
            | .ok _ => (.ok user_info, ⟨r3.cache, r3.provider⟩)
            | .error e3 =>
                (.error ⟨500, "Authentication error: " ++ e3.message⟩,
                  ⟨r3.cache, r3.provider⟩)

/-- A row of the `user_agent_purchases` table (`UserAgentPurchaseDB`),
restricted to the columns the subscription operations read or write; the
primary key is `id`, dates are whole-second timestamps. -/
structure SubRow where
  id : Nat
  user_id : String
  agent_id : String
  purchase_modality : String
  purchase_date : Nat
  expiry_date : Option Nat
  ownership_status : String
deriving DecidableEq, Repr

/-- The `user_agent_purchases` table, in the order the database returns rows
(`.first()` takes the head of the filtered list). -/
abbrev SubDB := List SubRow

/-- The filter of `SubscriptionService.get_active_subscription`: rows of the
(user, agent) pair whose `ownership_status` is "active". -/
def isActiveFor (user_id agent_id : String) (r : SubRow) : Bool :=
  r.user_id == user_id && r.agent_id == agent_id && r.ownership_status == "active"

/-- Shallow embedding of `SubscriptionService.get_active_subscription`. -/
def get_active_subscription (db : SubDB) (user_id agent_id : String) :
    Option SubRow :=
  db.find? (isActiveFor user_id agent_id)

/-- The `AgentSubscriptionCreate` request schema, restricted to the fields
`create_subscription` reads.  `ownership_status` is a plain string here: the
pydantic schema declares it `Optional[str] = "active"`, so a request that
omits it carries "active". -/
structure AgentSubscriptionCreate where
  user_id : Option String
  agent_id : String
  purchase_modality : Option String
  purchase_date : Option Nat
  expiry_date : Option Nat
  ownership_status : String
deriving DecidableEq, Repr

/-- The `AgentSubscriptionUpdate` schema under
`model_dump(exclude_unset=True)`: `ownership_status` is a required field
(always set); `expiry_date` is `none` when unset and `some v` when set to
`v` (which may itself be `none`, i.e. an explicit null). -/
structure AgentSubscriptionUpdate where
  ownership_status : String
  expiry_date : Option (Option Nat)
deriving DecidableEq, Repr

/-- The `setattr` loop of `SubscriptionService.update_subscription` applied
to one row: set each field present in the dump. -/
def applyUpdate (u : AgentSubscriptionUpdate) (r : SubRow) : SubRow :=
  { r with
    ownership_status := u.ownership_status
    expiry_date := match u.expiry_date with
      | none => r.expiry_date
      | some v => v }

/-- Mutating the first row matched by `get_active_subscription` in place, as
the ORM session does: the row object returned by `.first()` is updated and
the table keeps it at its position.  Returns the updated row (if any) and
the resulting table. -/
def updateFirstActive (user_id agent_id : String) (f : SubRow → SubRow) :
    SubDB → Option SubRow × SubDB
  | [] => (none, [])
  | r :: rest =>
      if isActiveFor user_id agent_id r then
        (some (f r), f r :: rest)
      else
        let step := updateFirstActive user_id agent_id f rest
        (step.1, r :: step.2)

/-- Shallow embedding of `SubscriptionService.update_subscription`: fetch
the active subscription of the pair; if none, return `none` leaving the
table unchanged; otherwise apply the update to that row and return it. -/
def update_subscription (db : SubDB) (user_id agent_id : String)
    (u : AgentSubscriptionUpdate) : Option SubRow × SubDB :=
  updateFirstActive user_id agent_id (applyUpdate u) db

/-- Shallow embedding of `SubscriptionService.unsubscribe`: update the active
subscription to `ownership_status="unsubscribed"` with
`expiry_date=datetime.utcnow()`. -/
def unsubscribe (db : SubDB) (user_id agent_id : String) (now : Nat) :
    Option SubRow × SubDB :=
  update_subscription db user_id agent_id ⟨"unsubscribed", some (some now)⟩

/-- Shallow embedding of `SubscriptionService.create_subscription`: build a
row from the request, defaulting `purchase_modality` to "default" and
`purchase_date` to `datetime.utcnow()`, and insert it.  `newId` is the
generated primary key. -/
def create_subscription (db : SubDB) (sub : AgentSubscriptionCreate)
    (newId : Nat) (now : Nat) : SubRow × SubDB :=
  let row : SubRow :=
    { id := newId
    , user_id := sub.user_id.getD ""
    , agent_id := sub.agent_id
    , purchase_modality := sub.purchase_modality.getD "default"
    , purchase_date := sub.purchase_date.getD now
    , expiry_date := sub.expiry_date
    , ownership_status := sub.ownership_status }
  (row, db ++ [row])

/-- Shallow embedding of the `POST /subscribe` endpoint (`subscribe_agent` in
`app/api/v1/endpoints/subscriptions.py`): overwrite `user_id` with the
current user's id, 404 when the agent does not exist, 400 when the pair
already has an active subscription, otherwise create the row. -/
def subscribe_agent (agents : List String) (current_user_id : String)
    (db : SubDB) (sub : AgentSubscriptionCreate) (newId : Nat) (now : Nat) :
    Except HttpError (SubRow × SubDB) :=
  let sub := { sub with user_id := some current_user_id }
  if ¬ agents.contains sub.agent_id then
    .error ⟨404, "Agent not found"⟩
  else
    match get_active_subscription db current_user_id sub.agent_id with
    | some _ => .error ⟨400, "User already has an active subscription for this agent"⟩
    | none => .ok (create_subscription db sub newId now)

/-- Number of active subscriptions of one (user, agent) pair. -/
def activeCount (db : SubDB) (user_id agent_id : String) : Nat :=
  (db.filter (isActiveFor user_id agent_id)).length

/-- The invariant of the spec: at most one active subscription per
(user, agent) pair. -/
def AtMostOneActive (db : SubDB) : Prop :=
  ∀ user_id agent_id, activeCount db user_id agent_id ≤ 1

/-! Sample data reused by witnesses below. -/

/-- A resolved caller identity, as injected into the evaluator. -/
def sampleUser : UserInfo :=
  ⟨"user_1", some "u@example.com", some "Ada", some "L"⟩

/-- A token payload with role `admin`, feature `content`, action `manage`. -/
def adminPayload : TokenPayload :=
  ⟨some "1234567890", some "sess_1", some ⟨some "admin", some "manage"⟩, some "content"⟩

/-- A token payload whose organization role is `user`. -/
def userRolePayload : TokenPayload :=
  ⟨some "1234567890", some "sess_1", some ⟨some "user", some "manage"⟩, some "content"⟩

/-- Predicate of C10 over an evaluator outcome: a grant is the literal
`True`, and every denial is an exception with status 401, 403 or 500. -/
def GrantOrHttpDenial (res : Except PermError Bool) : Prop :=
  (∀ b, res = .ok b → b = true)
  ∧ (∀ e, res = .error e →
      e.statusCode = 401 ∨ e.statusCode = 403 ∨ e.statusCode = 500)

/-- A concrete Clerk user record. -/
def sampleClerk : ClerkUser := ⟨"1234567890", ["u@example.com"], some "Ada", some "L"⟩

/-- A resolver state whose provider will answer: error, then a user, then
error — a transient hiccup followed by one good answer, then another
hiccup. -/
def flakyState : ResolverState :=
  ⟨[], ⟨[.error (.clerkErrors "boom"), .ok sampleClerk, .error (.sdkError "boom2")], 0⟩⟩

/-- A resolver state whose provider answers: error, then a user, then the
user again — the re-population call succeeds. -/
def recoveringState : ResolverState :=
  ⟨[], ⟨[.error (.clerkErrors "boom"), .ok sampleClerk, .ok sampleClerk], 0⟩⟩

/-- Range of the status codes of evaluator errors. -/
theorem permError_statusCode_mem (e : PermError) :
    e.statusCode = 401 ∨ e.statusCode = 403 ∨ e.statusCode = 500 := by
  cases e <;> simp [PermError.statusCode]

example :
    check_role_and_permission
      (fun _ => .ok adminPayload)
      (some sampleUser) (some "Bearer tok") "admin" "org:content:manage"
      = .ok true := by rfl

example :
    check_role_and_permission
      (fun _ => .ok adminPayload)
      (some sampleUser) (some "Bearer tok") "admin" "org:content:delete"
      = .error (.insufficientPermission "org:content:delete" ["content"] ["manage"]) := by rfl

/-- C1: for a verified token with non-empty organization data, matching
role, and a requirement that splits into exactly three colon-separated
parts, the evaluator grants exactly when the required feature is in the
parsed `fea` set and the required action is in the parsed `o.per` set; an
empty parsed feature set raises 403 "No feature data found in token"; and a
non-empty feature set with a failed membership test raises 403 carrying the
required permission and both parsed sets. -/
theorem role_permission_grant_iff
    (verify : String → VerifyResult) (u : UserInfo) (h : String)
    (payload : TokenPayload) (org : OrgData)
    (required_role required_permission p0 f a : String)
    (hb : pyStartsWith h "Bearer " = true)
    (hv : verify (bearerToken h) = .ok payload)
    (ho : payload.o = some org)
    (hne : org.nonempty = true)
    (hr : org.rol = some required_role)
    (hp : pySplit required_permission ':' = [p0, f, a]) :
    (check_role_and_permission verify (some u) (some h) required_role required_permission
        = .ok true
      ↔ (f ∈ parseClaimSet (payload.fea.getD "")
          ∧ a ∈ parseClaimSet (org.per.getD "")))
    ∧ (parseClaimSet (payload.fea.getD "") = [] →
        check_role_and_permission verify (some u) (some h) required_role required_permission
          = .error .noFeatureData
        ∧ PermError.statusCode .noFeatureData = 403
        ∧ PermError.detail .noFeatureData = "No feature data found in token")
    ∧ (parseClaimSet (payload.fea.getD "") ≠ [] →
        ¬ (f ∈ parseClaimSet (payload.fea.getD "")
            ∧ a ∈ parseClaimSet (org.per.getD "")) →
        check_role_and_permission verify (some u) (some h) required_role required_permission
          = .error (.insufficientPermission required_permission
              (parseClaimSet (payload.fea.getD "")) (parseClaimSet (org.per.getD "")))
        ∧ (PermError.insufficientPermission required_permission
            (parseClaimSet (payload.fea.getD "")) (parseClaimSet (org.per.getD ""))).statusCode
          = 403) := by
  have key : check_role_and_permission verify (some u) (some h) required_role
      required_permission
      = (if (parseClaimSet (payload.fea.getD "")).isEmpty then
          .error .noFeatureData
        else if (parseClaimSet (payload.fea.getD "")).contains f
            && (parseClaimSet (org.per.getD "")).contains a then
          .ok true
        else
          .error (.insufficientPermission required_permission
            (parseClaimSet (payload.fea.getD "")) (parseClaimSet (org.per.getD "")))) := by
    simp only [check_role_and_permission, Option.isNone_some, Bool.false_eq_true,
      if_false, hb, not_true, hv, ho, Option.getD_some, hne, hr, hp,
      reduceCtorEq, ne_eq, not_false_iff, if_neg, if_true]
  refine ⟨?_, ?_, ?_⟩
  · rw [key]
    by_cases he : (parseClaimSet (payload.fea.getD "")).isEmpty = true
    · have hnil : parseClaimSet (payload.fea.getD "") = [] :=
        List.isEmpty_iff.mp he
      rw [hnil]
      simp
    · constructor
      · intro hok
        simp [he] at hok
        exact hok
      · intro hmem
        simp [he]
        exact hmem
  · intro hnil
    rw [key, hnil]
    exact ⟨rfl, rfl, rfl⟩
  · intro hnonnil hnmem
    have he : (parseClaimSet (payload.fea.getD "")).isEmpty = false := by
      simpa [List.isEmpty_iff] using hnonnil
    rw [key]
    simp [he, hnmem, PermError.statusCode]

/-- C1 witness: the admin/content/manage scenario grants. -/
theorem role_permission_grant_iff_witness :
    check_role_and_permission (fun _ => .ok adminPayload) (some sampleUser)
      (some "Bearer tok") "admin" "org:content:manage" = .ok true :=
  ((role_permission_grant_iff (fun _ => .ok adminPayload) sampleUser "Bearer tok"
      adminPayload ⟨some "admin", some "manage"⟩ "admin" "org:content:manage"
      "org" "content" "manage" (by decide) rfl rfl (by decide) rfl
      (by decide)).1).mpr (by decide)

/-- C2 counterexample: a required_permission that does not split into three
parts does NOT always raise 500 — with a token whose role is "user" and a
required role "admin", the evaluator raises 403 "Insufficient role" instead,
because the role check runs before the requirement is parsed. -/
theorem malformed_requirement_counterexample :
    check_role_and_permission (fun _ => .ok userRolePayload) (some sampleUser)
      (some "Bearer tok") "admin" "invalid_format"
      = .error (.insufficientRole "admin" (some "user"))
    ∧ (PermError.insufficientRole "admin" (some "user")).statusCode = 403
    ∧ (PermError.insufficientRole "admin" (some "user")).statusCode ≠ 500 := by
  refine ⟨by rfl, by rfl, by decide⟩

/-- C2 amended: for a verified token with non-empty organization data whose
role equals required_role, a required_permission that does not split into
exactly three colon-separated parts raises 500 "Invalid permission format:
..." naming the malformed literal, for any feature or permission content of
the token.  (When the organization data is empty or the role differs, the
corresponding 403 is raised first and the malformed requirement goes
unnoticed.) -/
theorem malformed_requirement_500
    (verify : String → VerifyResult) (u : UserInfo) (h : String)
    (payload : TokenPayload) (org : OrgData)
    (required_role required_permission : String)
    (hb : pyStartsWith h "Bearer " = true)
    (hv : verify (bearerToken h) = .ok payload)
    (ho : payload.o = some org)
    (hne : org.nonempty = true)
    (hr : org.rol = some required_role)
    (hp : (pySplit required_permission ':').length ≠ 3) :
    check_role_and_permission verify (some u) (some h) required_role required_permission
      = .error (.invalidPermissionFormat required_permission)
    ∧ (PermError.invalidPermissionFormat required_permission).statusCode = 500
    ∧ (PermError.invalidPermissionFormat required_permission).detail
        = "Invalid permission format: " ++ required_permission := by
  refine ⟨?_, rfl, rfl⟩
  simp only [check_role_and_permission, Option.isNone_some, Bool.false_eq_true,
    if_false, hb, not_true, hv, ho, Option.getD_some, hne, hr,
    reduceCtorEq, ne_eq, not_false_iff, if_neg, if_true]
  match hsp : pySplit required_permission ':' with
  | [] => rfl
  | [x] => rfl
  | [x, y] => rfl
  | [x, y, z] => rw [hsp] at hp; simp at hp
  | x :: y :: z :: w :: rest => rfl

/-- C2 witness: the repo's own test scenario — role matches, requirement
"invalid_format" — raises 500. -/
theorem malformed_requirement_500_witness :
    check_role_and_permission (fun _ => .ok adminPayload) (some sampleUser)
      (some "Bearer tok") "admin" "invalid_format"
      = .error (.invalidPermissionFormat "invalid_format")
    ∧ (PermError.invalidPermissionFormat "invalid_format").statusCode = 500
    ∧ (PermError.invalidPermissionFormat "invalid_format").detail
        = "Invalid permission format: " ++ "invalid_format" :=
  malformed_requirement_500 (fun _ => .ok adminPayload) sampleUser "Bearer tok"
    adminPayload ⟨some "admin", some "manage"⟩ "admin" "invalid_format"
    (by decide) rfl rfl (by decide) rfl (by decide)

/-- C5: for a verified token with non-empty organization data whose role
differs from required_role, the evaluator raises 403 naming the required
and found role — uniformly in required_permission (even a malformed one)
and in the token's `fea`/`o.per` content, and the error value carries no
feature or permission data, which shows the role check precedes requirement
parsing and feature/permission set computation. -/
theorem insufficient_role_short_circuit
    (verify : String → VerifyResult) (u : UserInfo) (h : String)
    (payload : TokenPayload) (org : OrgData)
    (required_role required_permission : String)
    (hb : pyStartsWith h "Bearer " = true)
    (hv : verify (bearerToken h) = .ok payload)
    (ho : payload.o = some org)
    (hne : org.nonempty = true)
    (hr : org.rol ≠ some required_role) :
    check_role_and_permission verify (some u) (some h) required_role required_permission
      = .error (.insufficientRole required_role org.rol)
    ∧ (PermError.insufficientRole required_role org.rol).statusCode = 403
    ∧ (PermError.insufficientRole required_role org.rol).detail
        = "Insufficient role. Required: " ++ required_role ++ ", Found: "
            ++ formatRole org.rol := by
  refine ⟨?_, rfl, rfl⟩
  simp only [check_role_and_permission, Option.isNone_some, Bool.false_eq_true,
    if_false, hb, not_true, hv, ho, Option.getD_some, hne,
    reduceCtorEq, ne_eq, not_false_iff, if_neg, if_true, hr]

/-- C5 witness: the spec's scenario — role "user", requirement
`(admin, org:content:manage)`. -/
theorem insufficient_role_short_circuit_witness :
    check_role_and_permission (fun _ => .ok userRolePayload) (some sampleUser)
      (some "Bearer tok") "admin" "org:content:manage"
      = .error (.insufficientRole "admin" (some "user"))
    ∧ (PermError.insufficientRole "admin" (some "user")).statusCode = 403 :=
  have hmain := insufficient_role_short_circuit (fun _ => .ok userRolePayload)
    sampleUser "Bearer tok" userRolePayload ⟨some "user", some "manage"⟩
    "admin" "org:content:manage" (by decide) rfl rfl (by decide) (by decide)
  ⟨hmain.1, hmain.2.1⟩

/-- C6: for a verified token whose organization claim is absent or an empty
dict, the evaluator raises 403 "No organization data found in token" —
uniformly in required_role and required_permission and in the token's other
claims, which shows the check precedes the role read, the role comparison
and all permission parsing. -/
theorem missing_org_data_403
    (verify : String → VerifyResult) (u : UserInfo) (h : String)
    (payload : TokenPayload)
    (required_role required_permission : String)
    (hb : pyStartsWith h "Bearer " = true)
    (hv : verify (bearerToken h) = .ok payload)
    (ho : (payload.o.getD ⟨none, none⟩).nonempty = false) :
    check_role_and_permission verify (some u) (some h) required_role required_permission
      = .error .noOrgData
    ∧ PermError.statusCode .noOrgData = 403
    ∧ PermError.detail .noOrgData = "No organization data found in token" := by
  refine ⟨?_, rfl, rfl⟩
  simp only [check_role_and_permission, Option.isNone_some, Bool.false_eq_true,
    if_false, hb, not_true, hv, ho, reduceCtorEq, ne_eq, not_false_iff,
    if_neg, if_true]

/-- C6 witness: a token with no `o` claim at all. -/
theorem missing_org_data_403_witness :
    check_role_and_permission
      (fun _ => .ok ⟨some "1234567890", some "sess_1", none, some "content"⟩)
      (some sampleUser) (some "Bearer tok") "admin" "org:content:manage"
      = .error .noOrgData
    ∧ PermError.statusCode .noOrgData = 403 :=
  have hmain := missing_org_data_403
    (fun _ => .ok ⟨some "1234567890", some "sess_1", none, some "content"⟩)
    sampleUser "Bearer tok" ⟨some "1234567890", some "sess_1", none, some "content"⟩
    "admin" "org:content:manage" (by decide) rfl (by decide)
  ⟨hmain.1, hmain.2.1⟩

/-- C4 counterexample: in the authorization-evaluator path a bad signature
does NOT surface as "Invalid token signature".  `check_role_and_permission`
has no `except jwt.InvalidSignatureError` handler, so the error falls into
the generic `except jwt.InvalidTokenError` branch and the caller sees
401 "Invalid token: Signature verification failed". -/
theorem bad_signature_message_counterexample :
    check_role_and_permission (fun _ => .badSignature) (some sampleUser)
      (some "Bearer tok") "admin" "org:content:manage"
      = .error (.invalidToken "Signature verification failed")
    ∧ (PermError.invalidToken "Signature verification failed").statusCode = 401
    ∧ (PermError.invalidToken "Signature verification failed").detail
        ≠ "Invalid token signature" := by
  refine ⟨by rfl, by rfl, by decide⟩

/-- C4 amended: a bad-signature token yields 401 in both paths, with the
message "Invalid token signature" in the session-resolver path
(`get_current_user` has a dedicated `InvalidSignatureError` handler) but
"Invalid token: Signature verification failed" in the evaluator path
(`check_role_and_permission` catches it as a generic `InvalidTokenError`);
the two messages differ, though both are distinct from the expired and
malformed messages. -/
theorem bad_signature_messages
    (verify₁ : String → VerifyResult) (now : Nat) (cred : String)
    (st : ResolverState) (h1 : verify₁ cred = .badSignature)
    (verify₂ : String → VerifyResult) (u : UserInfo) (h : String)
    (required_role required_permission : String)
    (hb : pyStartsWith h "Bearer " = true)
    (h2 : verify₂ (bearerToken h) = .badSignature) :
    get_current_user verify₁ now cred st
      = (.error ⟨401, "Invalid token signature"⟩, st)
    ∧ check_role_and_permission verify₂ (some u) (some h) required_role required_permission
        = .error (.invalidToken "Signature verification failed")
    ∧ (PermError.invalidToken "Signature verification failed").statusCode = 401
    ∧ (PermError.invalidToken "Signature verification failed").detail
        ≠ "Invalid token signature" := by
  refine ⟨?_, ?_, rfl, by decide⟩
  · simp only [get_current_user, h1]
  · simp only [check_role_and_permission, Option.isNone_some, Bool.false_eq_true,
      if_false, hb, not_true, h2, reduceCtorEq, ne_eq, not_false_iff,
      if_neg, if_true]

/-- C4 witness: concrete bad-signature token in both paths. -/
theorem bad_signature_messages_witness :
    get_current_user (fun _ => .badSignature) 0 "tok" ⟨[], ⟨[], 0⟩⟩
      = (.error ⟨401, "Invalid token signature"⟩, ⟨[], ⟨[], 0⟩⟩)
    ∧ check_role_and_permission (fun _ => .badSignature) (some sampleUser)
        (some "Bearer tok") "admin" "org:content:manage"
        = .error (.invalidToken "Signature verification failed") :=
  have hmain := bad_signature_messages (fun _ => .badSignature) 0 "tok"
    ⟨[], ⟨[], 0⟩⟩ rfl (fun _ => .badSignature) sampleUser "Bearer tok"
    "admin" "org:content:manage" (by decide) rfl
  ⟨hmain.1, hmain.2.1⟩

/-- C10: the evaluator never returns `False` — on every input it either
returns `True` or raises an `HTTPException` whose status is 401, 403 or
500. -/
theorem evaluator_never_returns_false
    (verify : String → VerifyResult) (current_user : Option UserInfo)
    (authHeader : Option String) (required_role required_permission : String) :
    GrantOrHttpDenial
      (check_role_and_permission verify current_user authHeader
        required_role required_permission) := by
  constructor
  · intro b hb
    simp only [check_role_and_permission] at hb
    repeat' split at hb
    all_goals simp_all
  · intro e _
    exact permError_statusCode_mem e

/-- C10 witness: a granting run and a denying run. -/
theorem evaluator_never_returns_false_witness :
    true = true ∧ ((403:Nat) = 401 ∨ (403:Nat) = 403 ∨ (403:Nat) = 500) :=
  ⟨(evaluator_never_returns_false (fun _ => .ok adminPayload) (some sampleUser)
      (some "Bearer tok") "admin" "org:content:manage").1 true (by rfl),
   (evaluator_never_returns_false (fun _ => .ok userRolePayload) (some sampleUser)
      (some "Bearer tok") "admin" "org:content:manage").2
      (.insufficientRole "admin" (some "user")) (by rfl)⟩

/-- C3: evaluation of the resolver at tokens lacking `sub` or `sid`.  The
code constructs `HTTPException(401, 'Invalid token: No user ID found')`
(resp. `'... No session ID found'`), but the enclosing `try` has no
`except HTTPException: raise` handler, so the blanket `except Exception`
catches it and the caller actually receives
500 "Authentication error: 401: ...". -/
theorem missing_claim_maps_to_500 :
    get_current_user (fun _ => .ok ⟨none, some "sess_1", none, none⟩) 0 "tok"
        ⟨[], ⟨[], 0⟩⟩
      = (.error ⟨500, "Authentication error: 401: Invalid token: No user ID found"⟩,
          ⟨[], ⟨[], 0⟩⟩)
    ∧ get_current_user (fun _ => .ok ⟨some "user_1", none, none, none⟩) 0 "tok"
        ⟨[], ⟨[], 0⟩⟩
      = (.error ⟨500, "Authentication error: 401: Invalid token: No session ID found"⟩,
          ⟨[], ⟨[], 0⟩⟩) :=
  ⟨rfl, rfl⟩

/-- Provider call counts only grow. -/
theorem get_cached_user_calls_le (c : Cache) (ps : ProviderState)
    (user_id : String) (timestamp : Nat) :
    ps.calls ≤ (get_cached_user c ps user_id timestamp).provider.calls := by
  unfold get_cached_user
  cases hfind : c.find? (cacheKeyMatches user_id timestamp) with
  | some e => simp
  | none =>
      unfold usersGet
      cases hres : ps.responses with
      | nil => simp
      | cons r rest => cases r <;> simp

/-- Evaluation of `get_cached_user` on a hit. -/
theorem get_cached_user_hit (c : Cache) (ps : ProviderState) (user_id : String)
    (timestamp : Nat) (e : (String × Nat) × UserInfo)
    (hfind : c.find? (cacheKeyMatches user_id timestamp) = some e) :
    get_cached_user c ps user_id timestamp
      = ⟨.ok e.2,
          ((user_id, timestamp), e.2)
            :: c.filter (fun x => ¬ cacheKeyMatches user_id timestamp x),
          ps⟩ := by
  unfold get_cached_user
  rw [hfind]

/-- Evaluation of `get_cached_user` on a miss answered by a user record. -/
theorem get_cached_user_miss_ok (c : Cache) (ps : ProviderState)
    (user_id : String) (timestamp : Nat) (cu : ClerkUser)
    (rest : List (Except ProviderError ClerkUser))
    (hfind : c.find? (cacheKeyMatches user_id timestamp) = none)
    (hres : ps.responses = .ok cu :: rest) :
    get_cached_user c ps user_id timestamp
      = ⟨.ok (userInfoOfClerk cu),
          (((user_id, timestamp), userInfoOfClerk cu) :: c).take CACHE_MAXSIZE,
          ⟨rest, ps.calls + 1⟩⟩ := by
  unfold get_cached_user usersGet
  rw [hfind, hres]

/-- Evaluation of `get_cached_user` on a miss answered by a provider error
(the exception is not memoized). -/
theorem get_cached_user_miss_err (c : Cache) (ps : ProviderState)
    (user_id : String) (timestamp : Nat) (err : ProviderError)
    (rest : List (Except ProviderError ClerkUser))
    (hfind : c.find? (cacheKeyMatches user_id timestamp) = none)
    (hres : ps.responses = .error err :: rest) :
    get_cached_user c ps user_id timestamp
      = ⟨.error err, c, ⟨rest, ps.calls + 1⟩⟩ := by
  unfold get_cached_user usersGet
  rw [hfind, hres]

/-- Evaluation of `get_cached_user` on a miss with an exhausted response
stream. -/
theorem get_cached_user_miss_exhausted (c : Cache) (ps : ProviderState)
    (user_id : String) (timestamp : Nat)
    (hfind : c.find? (cacheKeyMatches user_id timestamp) = none)
    (hres : ps.responses = []) :
    get_cached_user c ps user_id timestamp
      = ⟨.error (.sdkError "provider unavailable"), c, ⟨[], ps.calls + 1⟩⟩ := by
  unfold get_cached_user usersGet
  rw [hfind, hres]

/-- A lookup whose key sits at the head of the table is a hit on that
entry. -/
theorem get_cached_user_head (user_id : String) (timestamp : Nat)
    (v : UserInfo) (rest : Cache) (ps : ProviderState) :
    get_cached_user (((user_id, timestamp), v) :: rest) ps user_id timestamp
      = ⟨.ok v,
          ((user_id, timestamp), v)
            :: ((((user_id, timestamp), v) :: rest).filter
                (fun x => ¬ cacheKeyMatches user_id timestamp x)),
          ps⟩ :=
  get_cached_user_hit _ _ _ _ _
    (List.find?_cons_of_pos _ (by simp [cacheKeyMatches]))

/-- Taking `CACHE_MAXSIZE` of a cons. -/
theorem take_maxsize_cons (a : (String × Nat) × UserInfo) (l : Cache) :
    (a :: l).take CACHE_MAXSIZE = a :: l.take 99 := rfl

/-- C7: (a) two back-to-back `get_cached_user` calls with the same
(subject, bucket) key, the first of which succeeds, return the same stored
identity record and together issue at most one provider call; (b) a call
for a bucket no entry of the table carries — in particular the next,
never-seen 5-minute bucket — issues exactly one new provider call. -/
theorem cache_same_bucket_single_call
    (c : Cache) (ps : ProviderState) (user_id : String) (timestamp : Nat)
    (u1 : UserInfo)
    (h1 : (get_cached_user c ps user_id timestamp).result = .ok u1)
    (c2 : Cache) (ps2 : ProviderState) (uid2 : String) (ts2 : Nat)
    (hfresh : ∀ e ∈ c2, e.1.2 ≠ ts2) :
    ((get_cached_user
        (get_cached_user c ps user_id timestamp).cache
        (get_cached_user c ps user_id timestamp).provider
        user_id timestamp).result = .ok u1
      ∧ (get_cached_user
          (get_cached_user c ps user_id timestamp).cache
          (get_cached_user c ps user_id timestamp).provider
          user_id timestamp).provider.calls ≤ ps.calls + 1)
    ∧ (get_cached_user c2 ps2 uid2 ts2).provider.calls = ps2.calls + 1 := by
  constructor
  · cases hfind : c.find? (cacheKeyMatches user_id timestamp) with
    | some e =>
        have hs1 := get_cached_user_hit c ps user_id timestamp e hfind
        have hu : u1 = e.2 := by
          rw [hs1] at h1
          exact (Except.ok.inj h1).symm
        subst hu
        simp only [hs1, get_cached_user_head]
        exact ⟨trivial, Nat.le_succ _⟩
    | none =>
        cases hres : ps.responses with
        | nil =>
            have hs1 := get_cached_user_miss_exhausted c ps user_id timestamp hfind hres
            rw [hs1] at h1
            simp at h1
        | cons r rest =>
            cases r with
            | error err =>
                have hs1 := get_cached_user_miss_err c ps user_id timestamp err rest hfind hres
                rw [hs1] at h1
                simp at h1
            | ok cu =>
                have hs1 := get_cached_user_miss_ok c ps user_id timestamp cu rest hfind hres
                have hu : u1 = userInfoOfClerk cu := by
                  rw [hs1] at h1
                  exact (Except.ok.inj h1).symm
                subst hu
                simp only [hs1, take_maxsize_cons, get_cached_user_head]
                exact ⟨trivial, Nat.le_refl _⟩
  · have hnone : c2.find? (cacheKeyMatches uid2 ts2) = none := by
      rw [List.find?_eq_none]
      intro x hx
      have := hfresh x hx
      simp [cacheKeyMatches]
      intro _
      simpa using this
    cases hres : ps2.responses with
    | nil =>
        rw [get_cached_user_miss_exhausted c2 ps2 uid2 ts2 hnone hres]
    | cons r rest =>
        cases r with
        | error err => rw [get_cached_user_miss_err c2 ps2 uid2 ts2 err rest hnone hres]
        | ok cu => rw [get_cached_user_miss_ok c2 ps2 uid2 ts2 cu rest hnone hres]

/-- C7 witness: a fresh cache, a provider that answers once, buckets 7
and 8. -/
theorem cache_same_bucket_single_call_witness :
    ((get_cached_user
        (get_cached_user [] ⟨[.ok ⟨"user_1", ["u@example.com"], some "Ada", some "L"⟩], 0⟩
          "user_1" 7).cache
        (get_cached_user [] ⟨[.ok ⟨"user_1", ["u@example.com"], some "Ada", some "L"⟩], 0⟩
          "user_1" 7).provider
        "user_1" 7).result
          = .ok (userInfoOfClerk ⟨"user_1", ["u@example.com"], some "Ada", some "L"⟩)
      ∧ (get_cached_user
          (get_cached_user [] ⟨[.ok ⟨"user_1", ["u@example.com"], some "Ada", some "L"⟩], 0⟩
            "user_1" 7).cache
          (get_cached_user [] ⟨[.ok ⟨"user_1", ["u@example.com"], some "Ada", some "L"⟩], 0⟩
            "user_1" 7).provider
          "user_1" 7).provider.calls ≤ 0 + 1)
    ∧ (get_cached_user [] ⟨[], 0⟩ "user_1" 8).provider.calls = 0 + 1 :=
  cache_same_bucket_single_call []
    ⟨[.ok ⟨"user_1", ["u@example.com"], some "Ada", some "L"⟩], 0⟩
    "user_1" 7 (userInfoOfClerk ⟨"user_1", ["u@example.com"], some "Ada", some "L"⟩)
    (by rfl) [] ⟨[], 0⟩ "user_1" 8 (by simp)

/-- C8 counterexample: cached lookup fails (call 1), the direct uncached
call succeeds (call 2), but the re-population of the cleared cache is a
*third* provider call — here failing — whose exception propagates to the
blanket handler: the resolver answers 500 "Authentication error: boom2"
instead of returning the fresh identity, and the cache is left empty, not
re-seeded. -/
theorem fallback_reseed_counterexample :
    get_current_user (fun _ => .ok adminPayload) 0 "tok" flakyState
      = (.error ⟨500, "Authentication error: boom2"⟩, ⟨[], ⟨[], 3⟩⟩)
    ∧ (usersGet (get_cached_user flakyState.cache flakyState.provider
          "1234567890" 0).provider).1 = .ok sampleClerk :=
  ⟨rfl, rfl⟩

/-- C8 amended: when the cached lookup raises a provider error, the
resolver makes a direct uncached provider call; if it fails, 500.  If it
succeeds, the cache is cleared and re-populated by a *further* provider
call for the caller's (subject, bucket) key: if that re-population call
returns a record, the cache holds exactly that record under the caller's
key and the resolver returns the identity from the direct call; if the
re-population call raises, the resolver fails with 500 and the cache stays
empty. -/
theorem fallback_reseed_behaviour
    (verify : String → VerifyResult) (now : Nat) (cred : String)
    (st : ResolverState) (payload : TokenPayload) (uid : String)
    (hv : verify cred = .ok payload)
    (hsub : payload.sub = some uid)
    (huid : uid ≠ "")
    (hsid : ¬ payload.sid.getD "" = "")
    (e1 : ProviderError)
    (hfail : (get_cached_user st.cache st.provider uid (now / 300)).result
      = .error e1) :
    (∀ e2 ps2,
      usersGet (get_cached_user st.cache st.provider uid (now / 300)).provider
          = (.error e2, ps2) →
      get_current_user verify now cred st
        = (.error ⟨500, "Authentication error: " ++ e2.message⟩,
            ⟨(get_cached_user st.cache st.provider uid (now / 300)).cache, ps2⟩))
    ∧ (∀ cu ps2,
      usersGet (get_cached_user st.cache st.provider uid (now / 300)).provider
          = (.ok cu, ps2) →
      (∀ v, (get_cached_user [] ps2 uid (now / 300)).result = .ok v →
        get_current_user verify now cred st
          = (.ok (userInfoOfClerk cu),
              ⟨(get_cached_user [] ps2 uid (now / 300)).cache,
                (get_cached_user [] ps2 uid (now / 300)).provider⟩)
        ∧ (get_cached_user [] ps2 uid (now / 300)).cache
            = [((uid, now / 300), v)])
      ∧ (∀ e3, (get_cached_user [] ps2 uid (now / 300)).result = .error e3 →
        get_current_user verify now cred st
          = (.error ⟨500, "Authentication error: " ++ e3.message⟩,
              ⟨(get_cached_user [] ps2 uid (now / 300)).cache,
                (get_cached_user [] ps2 uid (now / 300)).provider⟩)
        ∧ (get_cached_user [] ps2 uid (now / 300)).cache = [])) := by
  have hkey : get_current_user verify now cred st
      = (let r1 := get_cached_user st.cache st.provider uid (now / 300)
         match r1.result with
         | .ok info => (.ok info, ⟨r1.cache, r1.provider⟩)
         | .error _ =>
           match usersGet r1.provider with
           | (.error e2, ps2) =>
               (.error ⟨500, "Authentication error: " ++ e2.message⟩, ⟨r1.cache, ps2⟩)
           | (.ok u, ps2) =>
               let r3 := get_cached_user [] ps2 uid (now / 300)
               match r3.result with
               | .ok _ => (.ok (userInfoOfClerk u), ⟨r3.cache, r3.provider⟩)
               | .error e3 =>
                   (.error ⟨500, "Authentication error: " ++ e3.message⟩,
                     ⟨r3.cache, r3.provider⟩)) := by
    simp only [get_current_user, hv, hsub, Option.getD_some, huid, hsid,
      if_false, if_neg, reduceCtorEq]
  constructor
  · intro e2 ps2 h2
    rw [hkey]
    simp only [hfail, h2]
  · intro cu ps2 h2
    constructor
    · intro v h3
      cases hr3 : (get_cached_user [] ps2 uid (now / 300)).result with
      | error e => rw [hr3] at h3; cases h3
      | ok v' =>
          have hv' : v' = v := by rw [hr3] at h3; exact Except.ok.inj h3
          subst hv'
          constructor
          · rw [hkey]
            simp only [hfail, h2, hr3]
          · cases hfind : ([] : Cache).find? (cacheKeyMatches uid (now / 300)) with
            | some e => simp at hfind
            | none =>
                cases hres : ps2.responses with
                | nil =>
                    rw [get_cached_user_miss_exhausted [] ps2 uid (now / 300) hfind hres]
                      at hr3
                    cases hr3
                | cons r rest =>
                    cases r with
                    | error err =>
                        rw [get_cached_user_miss_err [] ps2 uid (now / 300) err rest
                          hfind hres] at hr3
                        cases hr3
                    | ok cu2 =>
                        have hmiss := get_cached_user_miss_ok [] ps2 uid (now / 300)
                          cu2 rest hfind hres
                        have : v' = userInfoOfClerk cu2 := by
                          rw [hmiss] at hr3
                          exact (Except.ok.inj hr3).symm
                        rw [hmiss, this]
                        rfl
    · intro e3 h3
      constructor
      · rw [hkey]
        simp only [hfail, h2, h3]
      · cases hfind : ([] : Cache).find? (cacheKeyMatches uid (now / 300)) with
        | some e => simp at hfind
        | none =>
            cases hres : ps2.responses with
            | nil =>
                rw [get_cached_user_miss_exhausted [] ps2 uid (now / 300) hfind hres]
            | cons r rest =>
                cases r with
                | error err =>
                    rw [get_cached_user_miss_err [] ps2 uid (now / 300) err rest hfind hres]
                | ok cu2 =>
                    rw [get_cached_user_miss_ok [] ps2 uid (now / 300) cu2 rest
                      hfind hres] at h3
                    cases h3

/-- C8 witness: transient error, successful direct call, successful
re-population: the resolver returns the fresh identity and the cache ends
up re-seeded for the caller's key. -/
theorem fallback_reseed_behaviour_witness :
    (get_current_user (fun _ => .ok adminPayload) 0 "tok" recoveringState
      = (.ok (userInfoOfClerk sampleClerk),
          ⟨(get_cached_user [] ⟨[.ok sampleClerk], 2⟩ "1234567890" 0).cache,
            (get_cached_user [] ⟨[.ok sampleClerk], 2⟩ "1234567890" 0).provider⟩))
    ∧ (get_cached_user [] ⟨[.ok sampleClerk], 2⟩ "1234567890" 0).cache
        = [(("1234567890", 0), userInfoOfClerk sampleClerk)] :=
  ((fallback_reseed_behaviour (fun _ => .ok adminPayload) 0 "tok" recoveringState
      adminPayload "1234567890" rfl rfl (by decide) (by decide)
      (.clerkErrors "boom") (by rfl)).2 sampleClerk ⟨[.ok sampleClerk], 2⟩
      (by rfl)).1 (userInfoOfClerk sampleClerk) (by rfl)

/-- A row matched by `isActiveFor` for some pair stays matched for that pair
only if the update keeps it active; since `applyUpdate` never changes
`user_id` or `agent_id`, an updated row can only be active for the pair the
original row was active for. -/
theorem applyUpdate_active_imp (uid' aid' : String) (u : AgentSubscriptionUpdate)
    (r : SubRow) (hact : r.ownership_status = "active")
    (hr' : isActiveFor uid' aid' (applyUpdate u r) = true) :
    isActiveFor uid' aid' r = true := by
  simp_all [isActiveFor, applyUpdate]

/-- Updating the first active row of a pair never increases the number of
active rows of any pair. -/
theorem updateFirstActive_count_le (uid aid : String)
    (u : AgentSubscriptionUpdate) (uid' aid' : String) :
    ∀ db : SubDB,
      activeCount (updateFirstActive uid aid (applyUpdate u) db).2 uid' aid'
        ≤ activeCount db uid' aid' := by
  intro db
  induction db with
  | nil => simp [updateFirstActive, activeCount]
  | cons r rest ih =>
      unfold updateFirstActive activeCount
      by_cases hact : isActiveFor uid aid r = true
      · rw [if_pos hact]
        simp only [List.filter_cons, List.length_cons]
        have hstat : r.ownership_status = "active" := by
          simp [isActiveFor] at hact
          exact hact.2
        by_cases hr' : isActiveFor uid' aid' (applyUpdate u r) = true
        · rw [if_pos hr', if_pos (applyUpdate_active_imp uid' aid' u r hstat hr')]
          simp
        · rw [if_neg hr']
          by_cases hr : isActiveFor uid' aid' r = true
          · rw [if_pos hr]
            simp [Nat.le_succ_of_le]
          · rw [if_neg hr]
      · rw [if_neg hact]
        simp only [List.filter_cons, List.length_cons]
        by_cases hr : isActiveFor uid' aid' r = true
        · rw [if_pos hr, if_pos hr]
          simpa [activeCount] using ih
        · rw [if_neg hr, if_neg hr]
          simpa [activeCount] using ih

/-- Appending a row for a pair that has no active row preserves the
invariant. -/
theorem append_one_active (db : SubDB) (row : SubRow)
    (hnone : db.find? (isActiveFor row.user_id row.agent_id) = none)
    (hinv : AtMostOneActive db) : AtMostOneActive (db ++ [row]) := by
  intro uid' aid'
  unfold activeCount
  rw [List.filter_append, List.length_append]
  by_cases hr : isActiveFor uid' aid' row = true
  · obtain ⟨⟨hu1, hu2⟩, hu3⟩ : (row.user_id = uid' ∧ row.agent_id = aid')
        ∧ row.ownership_status = "active" := by
      simpa [isActiveFor] using hr
    have hnil : db.filter (isActiveFor uid' aid') = [] := by
      rw [List.filter_eq_nil_iff]
      intro x hx
      have hnx := List.find?_eq_none.mp hnone x hx
      rw [← hu1, ← hu2]
      simpa using hnx
    rw [hnil]
    simp [hr]
  · have hone : List.filter (isActiveFor uid' aid') [row] = [] := by
      simp [List.filter, hr]
    rw [hone]
    simpa using hinv uid' aid'

/-- C9: (a) when the agent exists and the (user, agent) pair already has an
active subscription, `POST /subscribe` fails with
400 "User already has an active subscription for this agent";
(b) a successful subscribe preserves the at-most-one-active invariant (it
creates the row only after observing no active row for the pair);
(c) `update_subscription` — hence (d) `unsubscribe` — preserves the
invariant for every pair: it only rewrites the pair's first active row and
never flips an inactive row to active. -/
theorem subscription_active_invariant
    (agents : List String) (current_user_id : String) (db : SubDB)
    (sub : AgentSubscriptionCreate) (newId now : Nat)
    (user_id agent_id : String) (u : AgentSubscriptionUpdate) (ts : Nat) :
    (agents.contains sub.agent_id = true →
      get_active_subscription db current_user_id sub.agent_id ≠ none →
      subscribe_agent agents current_user_id db sub newId now
        = .error ⟨400, "User already has an active subscription for this agent"⟩)
    ∧ (∀ row db', subscribe_agent agents current_user_id db sub newId now
          = .ok (row, db') →
        AtMostOneActive db → AtMostOneActive db')
    ∧ (AtMostOneActive db →
        AtMostOneActive (update_subscription db user_id agent_id u).2)
    ∧ (AtMostOneActive db →
        AtMostOneActive (unsubscribe db user_id agent_id ts).2) := by
  have hupd : AtMostOneActive db →
      AtMostOneActive (update_subscription db user_id agent_id u).2 := by
    intro hinv uid' aid'
    exact le_trans (updateFirstActive_count_le user_id agent_id u uid' aid' db)
      (hinv uid' aid')
  refine ⟨?_, ?_, hupd, ?_⟩
  · intro hagent hsome
    cases hfind : get_active_subscription db current_user_id sub.agent_id with
    | none => exact absurd hfind hsome
    | some e =>
        have hmem : sub.agent_id ∈ agents := by simpa using hagent
        simp [subscribe_agent, hfind, hmem]
  · intro row db' hok hinv
    simp only [subscribe_agent] at hok
    split at hok
    · cases hok
    · cases hfind : get_active_subscription db current_user_id sub.agent_id with
      | some e => rw [hfind] at hok; cases hok
      | none =>
          rw [hfind] at hok
          simp only [create_subscription] at hok
          have hpair := Except.ok.inj hok
          injection hpair with hrow hdb
          rw [hrow] at hdb
          rw [← hdb]
          apply append_one_active db row _ hinv
          rw [← hrow]
          simpa [get_active_subscription] using hfind
  · intro hinv uid' aid'
    exact le_trans (updateFirstActive_count_le user_id agent_id
      ⟨"unsubscribed", some (some ts)⟩ uid' aid' db) (hinv uid' aid')

/-- C9 witness: a one-row table with an active subscription rejects a
duplicate subscribe with 400; a subscribe into an empty table yields a
table satisfying the invariant; update and unsubscribe preserve it. -/
theorem subscription_active_invariant_witness :
    (subscribe_agent ["agent_1"] "user_1"
        [⟨1, "user_1", "agent_1", "default", 0, none, "active"⟩]
        ⟨none, "agent_1", none, none, none, "active"⟩ 2 0
      = .error ⟨400, "User already has an active subscription for this agent"⟩)
    ∧ AtMostOneActive [⟨1, "user_1", "agent_1", "default", 0, none, "active"⟩]
    ∧ AtMostOneActive (update_subscription
        [⟨1, "user_1", "agent_1", "default", 0, none, "active"⟩]
        "user_1" "agent_1" ⟨"unsubscribed", some (some 5)⟩).2
    ∧ AtMostOneActive (unsubscribe
        [⟨1, "user_1", "agent_1", "default", 0, none, "active"⟩]
        "user_1" "agent_1" 5).2 := by
  have hinv0 : AtMostOneActive
      [⟨1, "user_1", "agent_1", "default", 0, none, "active"⟩] := by
    intro u a
    exact le_trans (List.length_filter_le _ _) (by simp)
  have hinvnil : AtMostOneActive ([] : SubDB) := by
    intro u a
    simp [activeCount]
  refine ⟨?_, ?_, ?_, ?_⟩
  · exact (subscription_active_invariant ["agent_1"] "user_1"
      [⟨1, "user_1", "agent_1", "default", 0, none, "active"⟩]
      ⟨none, "agent_1", none, none, none, "active"⟩ 2 0
      "user_1" "agent_1" ⟨"unsubscribed", some (some 5)⟩ 5).1 (by rfl) (by decide)
  · exact (subscription_active_invariant ["agent_1"] "user_1" []
      ⟨none, "agent_1", none, none, none, "active"⟩ 1 0
      "user_1" "agent_1" ⟨"unsubscribed", some (some 5)⟩ 5).2.1
      ⟨1, "user_1", "agent_1", "default", 0, none, "active"⟩
      [⟨1, "user_1", "agent_1", "default", 0, none, "active"⟩] (by rfl) hinvnil
  · exact (subscription_active_invariant ["agent_1"] "user_1"
      [⟨1, "user_1", "agent_1", "default", 0, none, "active"⟩]
      ⟨none, "agent_1", none, none, none, "active"⟩ 2 0
      "user_1" "agent_1" ⟨"unsubscribed", some (some 5)⟩ 5).2.2.1 hinv0
  · exact (subscription_active_invariant ["agent_1"] "user_1"
      [⟨1, "user_1", "agent_1", "default", 0, none, "active"⟩]
      ⟨none, "agent_1", none, none, none, "active"⟩ 2 0
      "user_1" "agent_1" ⟨"unsubscribed", some (some 5)⟩ 5).2.2.2 hinv0
